import Mathlib

/-!
Shallow embedding of `src/digikey_mcp_server.py`.

JSON values (and the Python objects the server passes around) are modelled by
the inductive type `J`; Python `None` is `J.null`, and Python dicts are
association lists in insertion order.  Machine integers of the source are
modelled by `Int` (Python ints are unbounded); timestamps are seconds since an
arbitrary epoch (`datetime.now()` becomes an explicit `now : Int` parameter,
`timedelta(minutes=5)` becomes `300`).  Network I/O is modelled by passing the
response (or the transport fault) that the corresponding `requests` call would
observe; an exception propagating out of a Python function is an
`Except.error`.
-/

/-- JSON/Python values.  Numbers are modelled as integers; no claim in this
development depends on float behaviour. -/
inductive J where
  | null : J
  | bool : Bool → J
  | num : Int → J
  | str : String → J
  | arr : List J → J
  | obj : List (String × J) → J
deriving Repr

namespace J

/-- Lookup in a Python dict (`d[k]` / `d.get(k)` key presence), modelled on the
association list. -/
def lookupKey : List (String × J) → String → Option J
  | [], _ => none
  | (k1, v) :: rest, k => if k1 = k then some v else lookupKey rest k

/-- Python `d.get(k)`: `None` when the key is absent. -/
def pyGet (d : List (String × J)) (k : String) : J :=
  match lookupKey d k with
  | some v => v
  | none => J.null

/-- Python `d.get(k, default)`. -/
def pyGetD (d : List (String × J)) (k : String) (dflt : J) : J :=
  match lookupKey d k with
  | some v => v
  | none => dflt

/-- Python truthiness of a JSON value (`if x:`). -/
def pyTruthy : J → Bool
  | J.null => false
  | J.bool b => b
  | J.num n => n != 0
  | J.str s => s != ""
  | J.arr xs => !xs.isEmpty
  | J.obj fs => !fs.isEmpty

/-- Python `a or b` on JSON values. -/
def pyOr (a b : J) : J := if pyTruthy a then a else b

/-- Python `x is None`. -/
def isNull : J → Bool
  | J.null => true
  | _ => false

/-- Python `x == ""` (false for every non-string value). -/
def isEmptyStr : J → Bool
  | J.str s => s == ""
  | _ => false

end J

/-- Python truthiness of `os.getenv(...)` results (`not CLIENT_ID`): `None`
and the empty string are falsy. -/
def pyTruthyStr : Option String → Bool
  | none => false
  | some s => s != ""

mutual

/-- Python `repr()` of a JSON value, as interpolated by `str()` for
container elements. -/
def jPyRepr : J → String
  | J.null => "None"
  | J.bool b => cond b "True" "False"
  | J.num n => toString n
  | J.str s => "\x27" ++ s ++ "\x27"
  | J.arr xs => "[" ++ jPyReprList xs ++ "]"
  | J.obj fs => "\x7b" ++ jPyReprFields fs ++ "\x7d"

/-- Comma-separated `repr`s of list elements. -/
def jPyReprList : List J → String
  | [] => ""
  | [x] => jPyRepr x
  | x :: y :: rest => jPyRepr x ++ ", " ++ jPyReprList (y :: rest)

/-- Comma-separated `repr`s of dict entries. -/
def jPyReprFields : List (String × J) → String
  | [] => ""
  | [(k, v)] => "\x27" ++ k ++ "\x27: " ++ jPyRepr v
  | (k, v) :: y :: rest =>
      "\x27" ++ k ++ "\x27: " ++ jPyRepr v ++ ", " ++ jPyReprFields (y :: rest)

end

/-- Python `str()` of a JSON value, as used by f-string interpolation. -/
def jPyStr : J → String
  | J.null => "None"
  | J.bool b => cond b "True" "False"
  | J.num n => toString n
  | J.str s => s
  | J.arr xs => "[" ++ jPyReprList xs ++ "]"
  | J.obj fs => "\x7b" ++ jPyReprFields fs ++ "\x7d"

/-- Python `str()` of an optional value (`f"Bearer {token}"` where the token
slot may hold `None`). -/
def jPyStrOpt : Option J → String
  | none => "None"
  | some v => jPyStr v

/-- An HTTP response as the `requests` library presents it: the status code,
the result of `resp.json()` (`none` when the body does not parse as JSON, in
which case `resp.json()` raises), and `resp.text`. -/
structure HttpResp where
  status : Int
  jsonBody : Option J
  text : String

/-- State of the source's `TokenManager` (fields `access_token` and
`token_expires_at`; the lock is not modelled — execution is sequential). -/
structure TMState where
  access_token : Option J
  token_expires_at : Option Int
deriving Repr

/-- Ways `TokenManager._refresh_token` can raise. -/
inductive RefreshErr where
  | missingCreds : RefreshErr
  | httpError : Int → RefreshErr
  | jsonDecode : RefreshErr
  | missingAccessToken : RefreshErr
  | badExpiresIn : RefreshErr
deriving Repr, DecidableEq

/-- Predicate for `requests.Response.raise_for_status()`: it raises exactly for 4xx/5xx. -/
def raise_for_status_raises (status : Int) : Bool :=
  decide (400 ≤ status) && decide (status < 600)

/-- The `expires_in` computation of `_refresh_token`:
`token_data.get("expires_in", 3600)` then `timedelta(seconds=expires_in)`.
The default 3600 applies only when the key is absent; a present value that is
not a number makes `timedelta` raise `TypeError` (Python `bool` is an `int`). -/
def expiresInOf (body : List (String × J)) : Except Unit Int :=
  match J.lookupKey body "expires_in" with
  | none => Except.ok 3600
  | some (J.num n) => Except.ok n
  | some (J.bool b) => Except.ok (cond b 1 0)
  | some _ => Except.error ()

/-- Embedding of `TokenManager._refresh_token`, lines 53–81 of the source.  `cid`/`csec`
are the module-level `CLIENT_ID`/`CLIENT_SECRET`, `now` the value of
`datetime.now()`, and `resp` the response of the `requests.post` to the token
endpoint.  An `Except.error` is a raised exception and carries the manager
state at the moment the exception propagates (the `access_token` assignment
on line 75 precedes the `expires_in` computation, so a `TypeError` there
escapes with the token already overwritten). -/
def refresh_token (cid csec : Option String) (s : TMState) (now : Int)
    (resp : HttpResp) : Except (RefreshErr × TMState) TMState :=
  if !pyTruthyStr cid || !pyTruthyStr csec then
    Except.error (RefreshErr.missingCreds, s)
  else if resp.status != 200 && raise_for_status_raises resp.status then
    Except.error (RefreshErr.httpError resp.status, s)
  else
    match resp.jsonBody with
    | none => Except.error (RefreshErr.jsonDecode, s)
    | some (J.obj body) =>
      match J.lookupKey body "access_token" with
      | none => Except.error (RefreshErr.missingAccessToken, s)
      | some tok =>
        let s1 : TMState := { s with access_token := some tok }
        match expiresInOf body with
        | Except.error _ => Except.error (RefreshErr.badExpiresIn, s1)
        | Except.ok ei =>
          Except.ok { s1 with token_expires_at := some (now + ei) }
    | some _ => Except.error (RefreshErr.missingAccessToken, s)

/-- The refresh condition of `get_token` (line 48–49):
`access_token is None or token_expires_at is None or
 now >= token_expires_at - timedelta(minutes=5)`. -/
def needsRefresh (s : TMState) (now : Int) : Bool :=
  s.access_token.isNone || s.token_expires_at.isNone ||
    (match s.token_expires_at with
     | some e => decide (e - 300 ≤ now)
     | none => true)

/-- Embedding of `TokenManager.get_token`, lines 44–51.  Returns the token handed to the
caller, the manager state afterwards, and the number of refresh network calls
performed (0 or 1); errors are exceptions propagating out of
`_refresh_token`. -/
def get_token (cid csec : Option String) (s : TMState) (now : Int)
    (resp : HttpResp) : Except (RefreshErr × TMState) (Option J × TMState × Nat) :=
  if needsRefresh s now then
    match refresh_token cid csec s now resp with
    | Except.error e => Except.error e
    | Except.ok s1 => Except.ok (s1.access_token, s1, 1)
  else
    Except.ok (s.access_token, s, 0)

/-- Outcome of one `requests.get`/`requests.post` call inside `_make_request`:
either an HTTP response or a raised transport exception
(`ConnectionError`/`Timeout`; the source wraps these calls in no handler). -/
inductive Outcome where
  | resp : HttpResp → Outcome
  | fault : String → Outcome

/-- Exceptions that can propagate out of `_make_request`. -/
inductive Fault where
  | transport : String → Fault
  | jsonDecode : Fault
  | refreshRaise : RefreshErr → Fault
deriving Repr, DecidableEq

/-- One HTTP request as issued by `_make_request` (method, URL, headers and
JSON body are forwarded unchanged to `requests`). -/
structure HttpRequest where
  method : String
  url : String
  headers : List (String × String)
  data : Option J

/-- Result of a completed `_make_request` call: the returned JSON value, the
token-manager state afterwards, the HTTP requests issued in order, and how
many forced expiries / token refreshes happened along the way. -/
structure RelayResult where
  body : J
  tm : TMState
  requests : List HttpRequest
  forcedExpiries : Nat
  refreshes : Nat

/-- Python dict update `d[k] = v` on a copy of the headers: replaces the value
in place when the key is present (keeping its position), appends otherwise. -/
def setHeader : List (String × String) → String → String → List (String × String)
  | [], k, v => [(k, v)]
  | (k1, v1) :: rest, k, v =>
    if k1 = k then (k, v) :: rest else (k1, v1) :: setHeader rest k v

/-- Header lookup by key (first occurrence). -/
def lookupHeader : List (String × String) → String → Option String
  | [], _ => none
  | (k1, v1) :: rest, k => if k1 = k then some v1 else lookupHeader rest k

/-- The structured not-found value built on line 126 of the source. -/
def notFoundObj (url : String) : J :=
  J.obj [("error", J.str "Not Found"),
         ("message", J.str ("Endpoint " ++ url ++
           " returned 404. This may be an incorrect part number or unsupported endpoint.")),
         ("status_code", J.num 404)]

/-- The structured error value built on lines 130–134 of the source: the
parsed JSON error body when `resp.json()` succeeds, the raw text otherwise. -/
def apiErrorObj (r : HttpResp) : J :=
  match r.jsonBody with
  | some e => J.obj [("error", J.str "API Error"), ("message", e),
                     ("status_code", J.num r.status)]
  | none => J.obj [("error", J.str "API Error"), ("message", J.str r.text),
                   ("status_code", J.num r.status)]

/-- Lines 124–136 of `_make_request`: response handling once the
401-first-attempt branch has not fired.  `Except.error Fault.jsonDecode` is
`resp.json()` raising on a 200 response whose body is not JSON. -/
def finishRequest (url : String) (r : HttpResp) : Except Fault J :=
  if r.status = 404 then Except.ok (notFoundObj url)
  else if r.status ≠ 200 then Except.ok (apiErrorObj r)
  else
    match r.jsonBody with
    | some j => Except.ok j
    | none => Except.error Fault.jsonDecode

/-- Embedding of `_make_request` called with `retry_count = 1` (the recursive call on line
122): the condition `retry_count == 0` on line 117 is false, so the 401 branch
cannot fire and the response is handled directly.  `env n` is the outcome the
HTTP call of attempt `n` would observe. -/
def make_request_retry (env : Nat → Outcome) (method url : String)
    (headers : List (String × String)) (data : Option J) (s : TMState) :
    Except Fault RelayResult :=
  match env 1 with
  | Outcome.fault m => Except.error (Fault.transport m)
  | Outcome.resp r =>
    match finishRequest url r with
    | Except.error f => Except.error f
    | Except.ok j => Except.ok ⟨j, s, [⟨method, url, headers, data⟩], 0, 0⟩

/-- Embedding of `_make_request`, lines 102–136, entered with `retry_count = 0` (as every
caller in the source does).  On a 401 first response it sets
`token_manager.token_expires_at = datetime.now()` (forced expiry), obtains a
fresh token via `get_token`, replaces only the `Authorization` entry of a copy
of the headers, and recurses once with `retry_count = 1`.  `tokResp` is the
token-endpoint response a refresh would observe; `cid`/`csec` the module
credentials. -/
def make_request (env : Nat → Outcome) (cid csec : Option String)
    (tokResp : HttpResp) (now : Int) (method url : String)
    (headers : List (String × String)) (data : Option J) (s : TMState) :
    Except Fault RelayResult :=
  match env 0 with
  | Outcome.fault m => Except.error (Fault.transport m)
  | Outcome.resp r =>
    if r.status = 401 then
      let s1 : TMState := { s with token_expires_at := some now }
      match get_token cid csec s1 now tokResp with
      | Except.error (e, _) => Except.error (Fault.refreshRaise e)
      | Except.ok (tok, s2, nref) =>
        let newHeaders := setHeader headers "Authorization" ("Bearer " ++ jPyStrOpt tok)
        match make_request_retry env method url newHeaders data s2 with
        | Except.error f => Except.error f
        | Except.ok out =>
          Except.ok { out with
            requests := ⟨method, url, headers, data⟩ :: out.requests,
            forcedExpiries := out.forcedExpiries + 1,
            refreshes := out.refreshes + nref }
    else
      match finishRequest url r with
      | Except.error f => Except.error f
      | Except.ok j => Except.ok ⟨j, s, [⟨method, url, headers, data⟩], 0, 0⟩

/-- Building of the `fields` dict of `_compact_product`, lines 143–180.  An
`Except.error` is a Python exception raised while digging into
`ProductVariations` (`len()`/indexing on a non-list, or `.get` on a non-dict
element); everything else in the function is `isinstance`-guarded. -/
def compact_fields (product : List (String × J)) : Except String (List (String × J)) :=
  let product_status :=
    match J.pyGet product "ProductStatus" with
    | J.obj fs => J.pyGet fs "Status"
    | v => v
  let digikey_part0 := J.pyGet product "DigiKeyPartNumber"
  let dkStep : Except String J :=
    if !J.pyTruthy digikey_part0 && J.pyTruthy (J.pyGet product "ProductVariations") then
      match J.pyGetD product "ProductVariations" (J.arr []) with
      | J.arr [] => Except.ok digikey_part0
      | J.arr (J.obj v0 :: _) => Except.ok (J.pyGet v0 "DigiKeyProductNumber")
      | J.arr (_ :: _) => Except.error "AttributeError"
      | _ => Except.error "TypeError"
    else Except.ok digikey_part0
  match dkStep with
  | Except.error e => Except.error e
  | Except.ok digikey_part =>
    let product_desc0 := J.pyGet product "ProductDescription"
    let detailed_desc0 := J.pyGet product "DetailedDescription"
    let descPair :=
      if !J.pyTruthy product_desc0 then
        match J.pyGet product "Description" with
        | J.obj dfs => (J.pyGet dfs "ProductDescription", J.pyGet dfs "DetailedDescription")
        | _ => (product_desc0, detailed_desc0)
      else (product_desc0, detailed_desc0)
    let manufacturer :=
      match J.pyGet product "Manufacturer" with
      | J.obj mfs => J.pyGet mfs "Name"
      | v => v
    let packaging :=
      match J.pyGet product "Packaging" with
      | J.obj pfs => J.pyGet pfs "Value"
      | v => v
    Except.ok [
      ("DigiKeyPartNumber", digikey_part),
      ("ManufacturerPartNumber",
        J.pyOr (J.pyGet product "ManufacturerProductNumber")
               (J.pyGet product "ManufacturerPartNumber")),
      ("Manufacturer", manufacturer),
      ("ProductDescription", descPair.1),
      ("DetailedDescription", descPair.2),
      ("QuantityAvailable", J.pyGet product "QuantityAvailable"),
      ("UnitPrice", J.pyGet product "UnitPrice"),
      ("MinimumOrderQuantity", J.pyGet product "MinimumOrderQuantity"),
      ("Packaging", packaging),
      ("ProductStatus", product_status),
      ("ProductUrl", J.pyGet product "ProductUrl"),
      ("DatasheetUrl", J.pyGet product "DatasheetUrl"),
      ("PrimaryPhoto",
        J.pyOr (J.pyGet product "PrimaryPhoto") (J.pyGet product "PhotoUrl")),
      ("StandardPricing", J.pyGet product "StandardPricing")]

/-- Embedding of `_compact_product`, lines 138–188: build `fields`, then copy into
`compact` only the entries with `value is not None and value != ""`
(dict insertion order makes this a filter). -/
def compact_product (product : List (String × J)) : Except String (List (String × J)) :=
  match compact_fields product with
  | Except.error e => Except.error e
  | Except.ok fields =>
    Except.ok (fields.filter (fun kv => !J.isNull kv.2 && !J.isEmptyStr kv.2))

/-- Limit capping in `keyword_search`, lines 252–254. -/
def keyword_search_limit (limit : Int) : Int :=
  if limit > 50 then 50 else limit

/-- Limit capping in `search_product_substitutions`, lines 403–405. -/
def search_product_substitutions_limit (limit : Int) : Int :=
  if limit > 50 then 50 else limit

/-- Limit capping in `search_manufacturers`, lines 335–337. -/
def search_manufacturers_limit (limit : Int) : Int :=
  if limit > 500 then 500 else limit

/-- Limit capping in `search_categories`, lines 363–365. -/
def search_categories_limit (limit : Int) : Int :=
  if limit > 500 then 500 else limit

/-- Field access on a JSON object. -/
def J.objGet : J → String → Option J
  | J.obj fs, k => J.lookupKey fs k
  | _, _ => none

/-- C1: get_token returns the cached token with no refresh when it is present
with more than 5 minutes of validity left, and otherwise (token absent, expiry
absent, or 5 minutes or less remaining) performs exactly one refresh and
returns the newly stored token. -/
theorem get_token_refresh_policy (cid csec : Option String) (s : TMState)
    (now : Int) (resp : HttpResp) :
    (∀ t e, s.access_token = some t → s.token_expires_at = some e →
      now < e - 300 →
      get_token cid csec s now resp = Except.ok (some t, s, 0)) ∧
    ((s.access_token = none ∨ s.token_expires_at = none ∨
        (∃ e, s.token_expires_at = some e ∧ e - 300 ≤ now)) →
      ∀ s1, refresh_token cid csec s now resp = Except.ok s1 →
        get_token cid csec s now resp = Except.ok (s1.access_token, s1, 1)) := by
  constructor
  · intro t e ht he hlt
    have hnr : needsRefresh s now = false := by
      simp [needsRefresh, ht, he]
      omega
    simp [get_token, hnr, ht]
  · intro hcond s1 href
    have hnr : needsRefresh s now = true := by
      rcases hcond with h | h | ⟨e, he, hle⟩
      · simp [needsRefresh, h]
      · simp [needsRefresh, h]
      · simp [needsRefresh, he]
        omega
    simp [get_token, hnr, href]

/-- Witness for C1 at concrete inputs: a token with 1000 s of validity at time
0 is returned unrefreshed; an empty cache triggers exactly one refresh and
returns the freshly stored token. -/
theorem get_token_refresh_policy_witness :
    get_token (some "id") (some "sec") ⟨some (J.str "tok"), some 1000⟩ 0
        ⟨200, some (J.obj []), ""⟩ =
      Except.ok (some (J.str "tok"), ⟨some (J.str "tok"), some 1000⟩, 0) ∧
    get_token (some "id") (some "sec") ⟨none, none⟩ 0
        ⟨200, some (J.obj [("access_token", J.str "abc")]), ""⟩ =
      Except.ok (some (J.str "abc"), ⟨some (J.str "abc"), some 3600⟩, 1) :=
  ⟨(get_token_refresh_policy (some "id") (some "sec") ⟨some (J.str "tok"), some 1000⟩ 0
      ⟨200, some (J.obj []), ""⟩).1 (J.str "tok") 1000 rfl rfl (by norm_num),
   (get_token_refresh_policy (some "id") (some "sec") ⟨none, none⟩ 0
      ⟨200, some (J.obj [("access_token", J.str "abc")]), ""⟩).2 (Or.inl rfl)
      ⟨some (J.str "abc"), some 3600⟩ rfl⟩

/-- C5 counterexample: a 304 token-endpoint response is non-2xx, yet
`_refresh_token` does not raise (`raise_for_status` only raises on 4xx/5xx):
it parses the body, overwrites the cached token and returns normally. -/
theorem refresh_non2xx_counterexample :
    refresh_token (some "id") (some "sec") ⟨some (J.str "old"), some 50⟩ 0
        ⟨304, some (J.obj [("access_token", J.str "new")]), ""⟩ =
      Except.ok ⟨some (J.str "new"), some 3600⟩ ∧
    ¬(200 ≤ (304 : Int) ∧ (304 : Int) < 300) :=
  ⟨rfl, by norm_num⟩

/-- C5 (amended): a refresh that fails with missing credentials or a 4xx/5xx
token-endpoint response raises and leaves the cached token and expiry exactly
as they were. -/
theorem refresh_failure_preserves_state (cid csec : Option String) (s : TMState)
    (now : Int) (resp : HttpResp) :
    ((pyTruthyStr cid = false ∨ pyTruthyStr csec = false) →
      refresh_token cid csec s now resp = Except.error (RefreshErr.missingCreds, s)) ∧
    (pyTruthyStr cid = true → pyTruthyStr csec = true →
      400 ≤ resp.status → resp.status < 600 →
      refresh_token cid csec s now resp =
        Except.error (RefreshErr.httpError resp.status, s)) := by
  constructor
  · intro h
    rcases h with h | h <;> simp [refresh_token, h]
  · intro h1 h2 h3 h4
    have hne : (resp.status != 200) = true := by
      simp only [bne_iff_ne, ne_eq]
      omega
    simp [refresh_token, h1, h2, hne, raise_for_status_raises, h3, h4]

/-- Witness for C5 (amended): missing secret, and a 403 response, both leave a
concrete cached state untouched. -/
theorem refresh_failure_preserves_state_witness :
    refresh_token (some "id") none ⟨some (J.str "old"), some 7⟩ 0
        ⟨200, some (J.obj []), ""⟩ =
      Except.error (RefreshErr.missingCreds, ⟨some (J.str "old"), some 7⟩) ∧
    refresh_token (some "id") (some "sec") ⟨some (J.str "old"), some 7⟩ 0
        ⟨403, some (J.obj []), "denied"⟩ =
      Except.error (RefreshErr.httpError 403, ⟨some (J.str "old"), some 7⟩) :=
  ⟨(refresh_failure_preserves_state (some "id") none ⟨some (J.str "old"), some 7⟩ 0
      ⟨200, some (J.obj []), ""⟩).1 (Or.inr rfl),
   (refresh_failure_preserves_state (some "id") (some "sec") ⟨some (J.str "old"), some 7⟩ 0
      ⟨403, some (J.obj []), "denied"⟩).2 rfl rfl (by norm_num) (by norm_num)⟩

/-- C6: a successful refresh stores the returned `access_token` and sets the
expiry to `now + expires_in`, with 3600 used exactly when the response body
omits `expires_in`. -/
theorem refresh_success_stores_token (cid csec : Option String) (s : TMState)
    (now : Int) (resp : HttpResp) (body : List (String × J)) (tok : J)
    (hcid : pyTruthyStr cid = true) (hcsec : pyTruthyStr csec = true)
    (hst : resp.status = 200) (hb : resp.jsonBody = some (J.obj body))
    (htok : J.lookupKey body "access_token" = some tok) :
    (∀ n : Int, J.lookupKey body "expires_in" = some (J.num n) →
      refresh_token cid csec s now resp = Except.ok ⟨some tok, some (now + n)⟩) ∧
    (J.lookupKey body "expires_in" = none →
      refresh_token cid csec s now resp = Except.ok ⟨some tok, some (now + 3600)⟩) := by
  constructor
  · intro n hn
    simp [refresh_token, hcid, hcsec, hst, hb, htok, expiresInOf, hn]
  · intro hn
    simp [refresh_token, hcid, hcsec, hst, hb, htok, expiresInOf, hn]

/-- Witness for C6: a 200 body with `expires_in: 1800` stores expiry
`now + 1800`; a body without `expires_in` stores `now + 3600`. -/
theorem refresh_success_stores_token_witness :
    refresh_token (some "id") (some "sec") ⟨none, none⟩ 10
        ⟨200, some (J.obj [("access_token", J.str "abc"), ("expires_in", J.num 1800)]), ""⟩ =
      Except.ok ⟨some (J.str "abc"), some 1810⟩ ∧
    refresh_token (some "id") (some "sec") ⟨none, none⟩ 10
        ⟨200, some (J.obj [("access_token", J.str "abc")]), ""⟩ =
      Except.ok ⟨some (J.str "abc"), some 3610⟩ :=
  ⟨(refresh_success_stores_token (some "id") (some "sec") ⟨none, none⟩ 10
      ⟨200, some (J.obj [("access_token", J.str "abc"), ("expires_in", J.num 1800)]), ""⟩
      [("access_token", J.str "abc"), ("expires_in", J.num 1800)] (J.str "abc")
      rfl rfl rfl rfl rfl).1 1800 rfl,
   (refresh_success_stores_token (some "id") (some "sec") ⟨none, none⟩ 10
      ⟨200, some (J.obj [("access_token", J.str "abc")]), ""⟩
      [("access_token", J.str "abc")] (J.str "abc") rfl rfl rfl rfl rfl).2 rfl⟩

/-- C7: a 404 response makes the relay return — not raise — the structured
not-found value, whose `status_code` is 404 and whose message contains the
requested URL. -/
theorem relay_404_structured (env : Nat → Outcome) (cid csec : Option String)
    (tokResp : HttpResp) (now : Int) (method url : String)
    (headers : List (String × String)) (data : Option J) (s : TMState)
    (r : HttpResp) (h0 : env 0 = Outcome.resp r) (h404 : r.status = 404) :
    make_request env cid csec tokResp now method url headers data s =
      Except.ok ⟨notFoundObj url, s, [⟨method, url, headers, data⟩], 0, 0⟩ ∧
    J.objGet (notFoundObj url) "status_code" = some (J.num 404) ∧
    (∃ pre post, J.objGet (notFoundObj url) "message" =
      some (J.str (pre ++ url ++ post))) := by
  refine ⟨?_, ?_, "Endpoint ",
    " returned 404. This may be an incorrect part number or unsupported endpoint.", rfl⟩
  · simp [make_request, h0, h404, finishRequest, notFoundObj]
  · rfl

/-- Witness for C7: a concrete 404 relay call. -/
theorem relay_404_structured_witness :
    make_request (fun _ => Outcome.resp ⟨404, none, "nope"⟩) (some "id") (some "sec")
        ⟨200, some (J.obj [("access_token", J.str "t")]), ""⟩ 0 "GET" "u" [] none
        ⟨none, none⟩ =
      Except.ok ⟨notFoundObj "u", ⟨none, none⟩, [⟨"GET", "u", [], none⟩], 0, 0⟩ ∧
    J.objGet (notFoundObj "u") "status_code" = some (J.num 404) ∧
    (∃ pre post, J.objGet (notFoundObj "u") "message" =
      some (J.str (pre ++ "u" ++ post))) :=
  relay_404_structured (fun _ => Outcome.resp ⟨404, none, "nope"⟩) (some "id") (some "sec")
    ⟨200, some (J.obj [("access_token", J.str "t")]), ""⟩ 0 "GET" "u" [] none
    ⟨none, none⟩ ⟨404, none, "nope"⟩ rfl rfl

/-- C8: a non-2xx response that is neither a first-attempt 401 nor a 404 is
returned as the structured error value carrying the response status, with the
parsed JSON error body as message when the body parses, and the raw text
otherwise. -/
theorem relay_non2xx_structured (env : Nat → Outcome) (cid csec : Option String)
    (tokResp : HttpResp) (now : Int) (method url : String)
    (headers : List (String × String)) (data : Option J) (s : TMState)
    (r : HttpResp) (h0 : env 0 = Outcome.resp r)
    (h2xx : ¬(200 ≤ r.status ∧ r.status < 300))
    (h404 : r.status ≠ 404) (h401 : r.status ≠ 401) :
    make_request env cid csec tokResp now method url headers data s =
      Except.ok ⟨apiErrorObj r, s, [⟨method, url, headers, data⟩], 0, 0⟩ ∧
    (∀ e, r.jsonBody = some e →
      apiErrorObj r = J.obj [("error", J.str "API Error"), ("message", e),
        ("status_code", J.num r.status)]) ∧
    (r.jsonBody = none →
      apiErrorObj r = J.obj [("error", J.str "API Error"), ("message", J.str r.text),
        ("status_code", J.num r.status)]) := by
  have h200 : r.status ≠ 200 := by omega
  refine ⟨?_, ?_, ?_⟩
  · simp [make_request, h0, h401, finishRequest, h404, h200]
  · intro e he
    simp [apiErrorObj, he]
  · intro he
    simp [apiErrorObj, he]

/-- Witness for C8: a 500 response with a JSON error body is wrapped with the
parsed body as message; a 502 response with an unparseable body is wrapped
with the raw text as message. -/
theorem relay_non2xx_structured_witness :
    make_request (fun _ => Outcome.resp ⟨500, some (J.obj [("detail", J.str "boom")]), "raw"⟩)
        (some "id") (some "sec") ⟨200, some (J.obj [("access_token", J.str "t")]), ""⟩
        0 "GET" "u" [] none ⟨none, none⟩ =
      Except.ok ⟨apiErrorObj ⟨500, some (J.obj [("detail", J.str "boom")]), "raw"⟩,
        ⟨none, none⟩, [⟨"GET", "u", [], none⟩], 0, 0⟩ ∧
    apiErrorObj ⟨502, none, "bad gateway"⟩ =
      J.obj [("error", J.str "API Error"), ("message", J.str "bad gateway"),
        ("status_code", J.num 502)] :=
  ⟨(relay_non2xx_structured
      (fun _ => Outcome.resp ⟨500, some (J.obj [("detail", J.str "boom")]), "raw"⟩)
      (some "id") (some "sec") ⟨200, some (J.obj [("access_token", J.str "t")]), ""⟩
      0 "GET" "u" [] none ⟨none, none⟩ ⟨500, some (J.obj [("detail", J.str "boom")]), "raw"⟩
      rfl (by norm_num) (by norm_num) (by norm_num)).1,
   (relay_non2xx_structured
      (fun _ => Outcome.resp ⟨502, none, "bad gateway"⟩)
      (some "id") (some "sec") ⟨200, some (J.obj [("access_token", J.str "t")]), ""⟩
      0 "GET" "u" [] none ⟨none, none⟩ ⟨502, none, "bad gateway"⟩
      rfl (by norm_num) (by norm_num) (by norm_num)).2.2 rfl⟩

/-- C3 counterexample: a 201 response (2xx but not 200) is not returned as its
parsed JSON body — the relay wraps it in the generic structured error value. -/
theorem relay_201_counterexample :
    make_request (fun _ => Outcome.resp ⟨201, some (J.obj []), ""⟩) (some "id") (some "sec")
        ⟨200, some (J.obj [("access_token", J.str "t")]), ""⟩ 0 "GET" "u" [] none
        ⟨none, none⟩ =
      Except.ok ⟨J.obj [("error", J.str "API Error"), ("message", J.obj []),
        ("status_code", J.num 201)], ⟨none, none⟩, [⟨"GET", "u", [], none⟩], 0, 0⟩ ∧
    J.obj [("error", J.str "API Error"), ("message", J.obj []),
      ("status_code", J.num 201)] ≠ J.obj [] := by
  refine ⟨rfl, fun h => ?_⟩
  injection h with h1
  exact List.cons_ne_nil _ _ h1

/-- C3 (amended): a response with status exactly 200 and a parseable body is
returned as the parsed JSON body unchanged; a 2xx status other than 200 is
wrapped in the generic structured error value instead. -/
theorem relay_200_returns_body (env : Nat → Outcome) (cid csec : Option String)
    (tokResp : HttpResp) (now : Int) (method url : String)
    (headers : List (String × String)) (data : Option J) (s : TMState)
    (r : HttpResp) (h0 : env 0 = Outcome.resp r) :
    (∀ j, r.status = 200 → r.jsonBody = some j →
      make_request env cid csec tokResp now method url headers data s =
        Except.ok ⟨j, s, [⟨method, url, headers, data⟩], 0, 0⟩) ∧
    (200 < r.status → r.status < 300 →
      make_request env cid csec tokResp now method url headers data s =
        Except.ok ⟨apiErrorObj r, s, [⟨method, url, headers, data⟩], 0, 0⟩) := by
  constructor
  · intro j h200 hb
    have h401 : r.status ≠ 401 := by omega
    simp [make_request, h0, h401, finishRequest, h200, hb]
  · intro hlo hhi
    have h401 : r.status ≠ 401 := by omega
    have h404 : r.status ≠ 404 := by omega
    have h200 : r.status ≠ 200 := by omega
    simp [make_request, h0, h401, finishRequest, h404, h200]

/-- Witness for C3 (amended): a 200 response with body 7 yields 7; a 204
response is wrapped as an error. -/
theorem relay_200_returns_body_witness :
    make_request (fun _ => Outcome.resp ⟨200, some (J.num 7), ""⟩) (some "id") (some "sec")
        ⟨200, some (J.obj [("access_token", J.str "t")]), ""⟩ 0 "GET" "u" [] none
        ⟨none, none⟩ =
      Except.ok ⟨J.num 7, ⟨none, none⟩, [⟨"GET", "u", [], none⟩], 0, 0⟩ ∧
    make_request (fun _ => Outcome.resp ⟨204, none, ""⟩) (some "id") (some "sec")
        ⟨200, some (J.obj [("access_token", J.str "t")]), ""⟩ 0 "GET" "u" [] none
        ⟨none, none⟩ =
      Except.ok ⟨apiErrorObj ⟨204, none, ""⟩, ⟨none, none⟩, [⟨"GET", "u", [], none⟩], 0, 0⟩ :=
  ⟨(relay_200_returns_body (fun _ => Outcome.resp ⟨200, some (J.num 7), ""⟩)
      (some "id") (some "sec") ⟨200, some (J.obj [("access_token", J.str "t")]), ""⟩
      0 "GET" "u" [] none ⟨none, none⟩ ⟨200, some (J.num 7), ""⟩ rfl).1
      (J.num 7) rfl rfl,
   (relay_200_returns_body (fun _ => Outcome.resp ⟨204, none, ""⟩)
      (some "id") (some "sec") ⟨200, some (J.obj [("access_token", J.str "t")]), ""⟩
      0 "GET" "u" [] none ⟨none, none⟩ ⟨204, none, ""⟩ rfl).2
      (by norm_num) (by norm_num)⟩

/-- C4 counterexample: a transport fault on the HTTP call propagates out of
`_make_request` as an exception — it is not converted into a returned
structured value. -/
theorem relay_transport_fault_counterexample :
    make_request (fun _ => Outcome.fault "ConnectionError") (some "id") (some "sec")
        ⟨200, some (J.obj [("access_token", J.str "t")]), ""⟩ 0 "GET" "u" [] none
        ⟨none, none⟩ =
      Except.error (Fault.transport "ConnectionError") := rfl

/-- C4 (amended): every per-call failure condition signalled by the status of
the relayed response is converted into a returned structured value — on the
first attempt for non-401 statuses, and on the retried response (any non-200
status, 404 included) once the forced refresh after a first-attempt 401
succeeds.  Two kinds of exceptions nevertheless escape the relay uncaught: a
transport fault while reaching the provider, and a token-refresh failure
(missing credentials or a 4xx/5xx token-endpoint response) during the forced
refresh triggered by a first-attempt 401. -/
theorem relay_error_propagation (env : Nat → Outcome) (cid csec : Option String)
    (tokResp : HttpResp) (now : Int) (method url : String)
    (headers : List (String × String)) (data : Option J) (s : TMState) :
    (∀ r, env 0 = Outcome.resp r → r.status ≠ 200 → r.status ≠ 401 →
      make_request env cid csec tokResp now method url headers data s =
        Except.ok ⟨if r.status = 404 then notFoundObj url else apiErrorObj r, s,
          [⟨method, url, headers, data⟩], 0, 0⟩) ∧
    (∀ r0 r1 s1, env 0 = Outcome.resp r0 → r0.status = 401 →
      refresh_token cid csec { s with token_expires_at := some now } now tokResp =
        Except.ok s1 →
      env 1 = Outcome.resp r1 → r1.status ≠ 200 →
      make_request env cid csec tokResp now method url headers data s =
        Except.ok ⟨if r1.status = 404 then notFoundObj url else apiErrorObj r1, s1,
          [⟨method, url, headers, data⟩,
           ⟨method, url, setHeader headers "Authorization"
             ("Bearer " ++ jPyStrOpt s1.access_token), data⟩], 1, 1⟩) ∧
    (∀ r0 e s1, env 0 = Outcome.resp r0 → r0.status = 401 →
      refresh_token cid csec { s with token_expires_at := some now } now tokResp =
        Except.error (e, s1) →
      make_request env cid csec tokResp now method url headers data s =
        Except.error (Fault.refreshRaise e)) ∧
    (∀ m, env 0 = Outcome.fault m →
      make_request env cid csec tokResp now method url headers data s =
        Except.error (Fault.transport m)) := by
  refine ⟨?_, ?_, ?_, ?_⟩
  · intro r h0 h200 h401
    by_cases h404 : r.status = 404
    · simp [make_request, h0, h401, finishRequest, h404]
    · simp [make_request, h0, h401, finishRequest, h404, h200]
  · intro r0 r1 s1 h0 h401 href h1 h200
    have hnr : needsRefresh { s with token_expires_at := some now } now = true := by
      have hle : now - 300 ≤ now := by omega
      simp [needsRefresh, hle]
    have hget : get_token cid csec { s with token_expires_at := some now } now tokResp =
        Except.ok (s1.access_token, s1, 1) := by
      simp [get_token, hnr, href]
    by_cases h404 : r1.status = 404
    · simp [make_request, h0, h401, hget, make_request_retry, h1, finishRequest, h404]
    · simp [make_request, h0, h401, hget, make_request_retry, h1, finishRequest, h404, h200]
  · intro r0 e s1 h0 h401 href
    have hnr : needsRefresh { s with token_expires_at := some now } now = true := by
      have hle : now - 300 ≤ now := by omega
      simp [needsRefresh, hle]
    have hget : get_token cid csec { s with token_expires_at := some now } now tokResp =
        Except.error (e, s1) := by
      simp [get_token, hnr, href]
    simp [make_request, h0, h401, hget]
  · intro m h0
    simp [make_request, h0]

/-- Witness for C4 (amended): a 503 first response is returned as a
structured value; a 401 retried into a 404 is returned as the structured
not-found value after two requests; a 400 token-endpoint response during the
forced refresh escapes as an exception, as does a transport fault. -/
theorem relay_error_propagation_witness :
    make_request (fun _ => Outcome.resp ⟨503, none, "unavailable"⟩) (some "id") (some "sec")
        ⟨200, some (J.obj [("access_token", J.str "t")]), ""⟩ 0 "GET" "u" [] none
        ⟨none, none⟩ =
      Except.ok ⟨if (503 : Int) = 404 then notFoundObj "u"
        else apiErrorObj ⟨503, none, "unavailable"⟩, ⟨none, none⟩,
        [⟨"GET", "u", [], none⟩], 0, 0⟩ ∧
    make_request
        (fun n => Outcome.resp (if n = 0 then ⟨401, none, "x"⟩ else ⟨404, none, "y"⟩))
        (some "id") (some "sec") ⟨200, some (J.obj [("access_token", J.str "t")]), ""⟩
        0 "GET" "u" [] none ⟨some (J.str "t0"), some 9999⟩ =
      Except.ok ⟨if (404 : Int) = 404 then notFoundObj "u" else apiErrorObj ⟨404, none, "y"⟩,
        ⟨some (J.str "t"), some 3600⟩,
        [⟨"GET", "u", [], none⟩,
         ⟨"GET", "u", setHeader [] "Authorization"
           ("Bearer " ++ jPyStrOpt (some (J.str "t"))), none⟩], 1, 1⟩ ∧
    make_request (fun _ => Outcome.resp ⟨401, none, "x"⟩) (some "id") (some "sec")
        ⟨400, some (J.obj []), "bad"⟩ 0 "GET" "u" [] none
        ⟨some (J.str "t0"), some 9999⟩ =
      Except.error (Fault.refreshRaise (RefreshErr.httpError 400)) ∧
    make_request (fun _ => Outcome.fault "Timeout") (some "id") (some "sec")
        ⟨200, some (J.obj [("access_token", J.str "t")]), ""⟩ 0 "GET" "u" [] none
        ⟨none, none⟩ =
      Except.error (Fault.transport "Timeout") :=
  ⟨(relay_error_propagation (fun _ => Outcome.resp ⟨503, none, "unavailable"⟩)
      (some "id") (some "sec") ⟨200, some (J.obj [("access_token", J.str "t")]), ""⟩
      0 "GET" "u" [] none ⟨none, none⟩).1 ⟨503, none, "unavailable"⟩ rfl
      (by norm_num) (by norm_num),
   (relay_error_propagation
      (fun n => Outcome.resp (if n = 0 then ⟨401, none, "x"⟩ else ⟨404, none, "y"⟩))
      (some "id") (some "sec") ⟨200, some (J.obj [("access_token", J.str "t")]), ""⟩
      0 "GET" "u" [] none ⟨some (J.str "t0"), some 9999⟩).2.1 ⟨401, none, "x"⟩
      ⟨404, none, "y"⟩ ⟨some (J.str "t"), some 3600⟩ rfl rfl rfl rfl (by norm_num),
   (relay_error_propagation (fun _ => Outcome.resp ⟨401, none, "x"⟩)
      (some "id") (some "sec") ⟨400, some (J.obj []), "bad"⟩ 0 "GET" "u" [] none
      ⟨some (J.str "t0"), some 9999⟩).2.2.1 ⟨401, none, "x"⟩ (RefreshErr.httpError 400)
      ⟨some (J.str "t0"), some 0⟩ rfl rfl rfl,
   (relay_error_propagation (fun _ => Outcome.fault "Timeout")
      (some "id") (some "sec") ⟨200, some (J.obj [("access_token", J.str "t")]), ""⟩
      0 "GET" "u" [] none ⟨none, none⟩).2.2.2 "Timeout" rfl⟩

/-- Replacing one header key leaves lookups of every other key unchanged. -/
theorem lookupHeader_setHeader_ne (hs : List (String × String)) (k0 v k : String)
    (h : k ≠ k0) : lookupHeader (setHeader hs k0 v) k = lookupHeader hs k := by
  have hne : ¬(k0 = k) := fun he => h he.symm
  induction hs with
  | nil => simp [setHeader, lookupHeader, hne]
  | cons p rest ih =>
    by_cases hp : p.1 = k0
    · simp [setHeader, hp, lookupHeader, hne]
    · simp [setHeader, hp, lookupHeader, ih]

/-- C2: on a first-attempt 401 the relay performs exactly one forced expiry
(`token_expires_at` set to `now`) and one refresh, repeats the request exactly
once with the same method/URL/body and only the Authorization header
recomputed from the newly stored token, and a second 401 is returned as the
structured error value with `status_code` 401 and no further request. -/
theorem relay_401_retry_once (env : Nat → Outcome) (cid csec : Option String)
    (tokResp : HttpResp) (now : Int) (method url : String)
    (headers : List (String × String)) (data : Option J) (s : TMState)
    (r0 r1 : HttpResp) (s1 : TMState)
    (h0 : env 0 = Outcome.resp r0) (h401 : r0.status = 401)
    (h1 : env 1 = Outcome.resp r1)
    (href : refresh_token cid csec { s with token_expires_at := some now } now tokResp =
      Except.ok s1) :
    (∀ k, k ≠ "Authorization" →
      lookupHeader (setHeader headers "Authorization"
        ("Bearer " ++ jPyStrOpt s1.access_token)) k = lookupHeader headers k) ∧
    (∀ j, finishRequest url r1 = Except.ok j →
      make_request env cid csec tokResp now method url headers data s =
        Except.ok ⟨j, s1,
          [⟨method, url, headers, data⟩,
           ⟨method, url, setHeader headers "Authorization"
             ("Bearer " ++ jPyStrOpt s1.access_token), data⟩], 1, 1⟩) ∧
    (r1.status = 401 →
      finishRequest url r1 = Except.ok (apiErrorObj r1) ∧
      J.objGet (apiErrorObj r1) "status_code" = some (J.num 401)) := by
  have hget : get_token cid csec { s with token_expires_at := some now } now tokResp =
      Except.ok (s1.access_token, s1, 1) := by
    have hnr : needsRefresh { s with token_expires_at := some now } now = true := by
      have hle : now - 300 ≤ now := by omega
      simp [needsRefresh, hle]
    simp [get_token, hnr, href]
  refine ⟨fun k hk => lookupHeader_setHeader_ne headers "Authorization" _ k hk, ?_, ?_⟩
  · intro j hj
    simp [make_request, h0, h401, hget, make_request_retry, h1, hj]
  · intro h401b
    have h404 : r1.status ≠ 404 := by omega
    have h200 : r1.status ≠ 200 := by omega
    constructor
    · simp [finishRequest, h404, h200]
    · cases hb : r1.jsonBody <;>
        simp [apiErrorObj, hb, J.objGet, J.lookupKey, h401b]

/-- Witness for C2: both attempts return 401 on a concrete relay call; the
result is the structured 401 error after exactly two requests, one forced
expiry and one refresh, with only the Authorization header recomputed. -/
theorem relay_401_retry_once_witness :
    make_request
        (fun n => Outcome.resp (if n = 0 then ⟨401, none, "x"⟩
          else ⟨401, some (J.obj [("e", J.str "d")]), "y"⟩))
        (some "id") (some "sec") ⟨200, some (J.obj [("access_token", J.str "t")]), ""⟩
        0 "GET" "u" [("Authorization", "Bearer old"), ("K", "V")] none
        ⟨some (J.str "t0"), some 9999⟩ =
      Except.ok ⟨apiErrorObj ⟨401, some (J.obj [("e", J.str "d")]), "y"⟩,
        ⟨some (J.str "t"), some 3600⟩,
        [⟨"GET", "u", [("Authorization", "Bearer old"), ("K", "V")], none⟩,
         ⟨"GET", "u", setHeader [("Authorization", "Bearer old"), ("K", "V")]
           "Authorization" ("Bearer " ++ jPyStrOpt (some (J.str "t"))), none⟩], 1, 1⟩ ∧
    J.objGet (apiErrorObj ⟨401, some (J.obj [("e", J.str "d")]), "y"⟩) "status_code" =
      some (J.num 401) := by
  have h := relay_401_retry_once
    (fun n => Outcome.resp (if n = 0 then ⟨401, none, "x"⟩
      else ⟨401, some (J.obj [("e", J.str "d")]), "y"⟩))
    (some "id") (some "sec") ⟨200, some (J.obj [("access_token", J.str "t")]), ""⟩
    0 "GET" "u" [("Authorization", "Bearer old"), ("K", "V")] none
    ⟨some (J.str "t0"), some 9999⟩ ⟨401, none, "x"⟩
    ⟨401, some (J.obj [("e", J.str "d")]), "y"⟩ ⟨some (J.str "t"), some 3600⟩
    rfl rfl rfl rfl
  exact ⟨h.2.1 _ (h.2.2 rfl).1, (h.2.2 rfl).2⟩

/-- C9: the effective limit of keyword_search and of
search_product_substitutions never exceeds 50, that of search_manufacturers
and of search_categories never exceeds 500, and a caller value above a
maximum is replaced by the maximum. -/
theorem tool_limits_capped (l : Int) :
    keyword_search_limit l ≤ 50 ∧ search_product_substitutions_limit l ≤ 50 ∧
    search_manufacturers_limit l ≤ 500 ∧ search_categories_limit l ≤ 500 ∧
    (50 < l → keyword_search_limit l = 50 ∧ search_product_substitutions_limit l = 50) ∧
    (500 < l → search_manufacturers_limit l = 500 ∧ search_categories_limit l = 500) := by
  unfold keyword_search_limit search_product_substitutions_limit
    search_manufacturers_limit search_categories_limit
  split_ifs <;> omega

/-- Witness for C9 at limit 1000: all four tools cap it to their maximum. -/
theorem tool_limits_capped_witness :
    keyword_search_limit 1000 = 50 ∧ search_product_substitutions_limit 1000 = 50 ∧
    search_manufacturers_limit 1000 = 500 ∧ search_categories_limit 1000 = 500 := by
  have h := tool_limits_capped 1000
  exact ⟨(h.2.2.2.2.1 (by norm_num)).1, (h.2.2.2.2.1 (by norm_num)).2,
    (h.2.2.2.2.2 (by norm_num)).1, (h.2.2.2.2.2 (by norm_num)).2⟩

/-- C10: every value stored in the compact-product output is neither None nor
the empty string, while entries of the fields dict whose value is the number
0 survive the filter into the output. -/
theorem compact_product_drops_null_empty (product m : List (String × J))
    (h : compact_product product = Except.ok m) :
    (∀ k v, (k, v) ∈ m → J.isNull v = false ∧ J.isEmptyStr v = false) ∧
    (∀ fields, compact_fields product = Except.ok fields →
      ∀ k, (k, J.num 0) ∈ fields → (k, J.num 0) ∈ m) := by
  cases hf : compact_fields product with
  | error e => simp [compact_product, hf] at h
  | ok fields0 =>
    simp only [compact_product, hf] at h
    injection h with h
    subst h
    constructor
    · intro k v hm
      have hp := (List.mem_filter.mp hm).2
      simp only [Bool.and_eq_true, Bool.not_eq_true'] at hp
      exact hp
    · intro fields hf2 k hk
      injection hf2 with hh
      subst hh
      exact List.mem_filter.mpr ⟨hk, rfl⟩

/-- Witness for C10: a product with a zero quantity, an empty description and
an explicit null URL compacts to just the zero quantity. -/
theorem compact_product_drops_null_empty_witness :
    (∀ k v, (k, v) ∈ [("QuantityAvailable", J.num 0)] →
      J.isNull v = false ∧ J.isEmptyStr v = false) ∧
    (∀ fields, compact_fields [("QuantityAvailable", J.num 0),
        ("ProductDescription", J.str ""), ("ProductUrl", J.null)] = Except.ok fields →
      ∀ k, (k, J.num 0) ∈ fields → (k, J.num 0) ∈ [("QuantityAvailable", J.num 0)]) :=
  compact_product_drops_null_empty
    [("QuantityAvailable", J.num 0), ("ProductDescription", J.str ""),
     ("ProductUrl", J.null)]
    [("QuantityAvailable", J.num 0)] rfl
